import Mathlib

/-!
Shallow embedding of the blog-api repository: the blog/comment data model
(src/models) and the state transformations performed by the route handlers
(src/routes/blogRoutes.js, blogRoutesV2.js, commentRoutes.js,
commentRoutesV2.js).  Stores are lists of records keyed by a numeric id
(standing for Mongo ObjectIds); each handler is a function from a store
state and request data to a response and a new state.
-/

namespace BlogApi

/-- The response shapes the handlers produce, keyed by HTTP status. -/
inductive Resp where
  | ok
  | created
  | validationFailed
  | badRequest (msg : String)
  | unauthorized
  | forbidden
  | notFound
  | serverError
deriving DecidableEq

/-- The HTTP status code of each response shape. -/
def Resp.status : Resp → Nat
  | .ok => 200
  | .created => 201
  | .validationFailed => 400
  | .badRequest _ => 400
  | .unauthorized => 401
  | .forbidden => 403
  | .notFound => 404
  | .serverError => 500

/-- A v1 Blog record (src/models/blogs.js: title, content, author, image,
comments, views, isPublished). -/
structure Blog where
  id : Nat
  title : String
  content : String
  author : Nat
  image : Option String
  comments : List Nat
  views : Nat
  isPublished : Bool
deriving DecidableEq

/-- A v1 Comment record: src/models/comments.js declares only text and a
required author.  The schema has no blog path, so under the default mongoose
strict mode the blog field that src/routes/commentRoutes.js passes to the
constructor is discarded — a persisted v1 comment carries no blog reference. -/
structure Comment where
  id : Nat
  text : String
  author : Option Nat
deriving DecidableEq

/-- The v1 store: the Blog and Comment collections. -/
structure StateV1 where
  blogs : List Blog
  comments : List Comment
deriving DecidableEq

/-- A v2 Blog record (src/models/blogV2.js). -/
structure BlogV2 where
  id : Nat
  title : String
  content : String
  author : Nat
  image : Option String
  comments : List Nat
  views : Nat
  isPublished : Bool
  categories : List Nat
  tags : List String
  likes : List Nat
  seoTitle : String
  seoDescription : String
  seoKeywords : List String
deriving DecidableEq

/-- A v2 Comment record (src/models/commentV2.js: text, required author,
replies). -/
structure CommentV2 where
  id : Nat
  text : String
  author : Option Nat
  replies : List Nat
deriving DecidableEq

/-- The v2 store: the BlogV2 and CommentV2 collections. -/
structure StateV2 where
  blogs : List BlogV2
  comments : List CommentV2
deriving DecidableEq

/-- An authenticated principal (src/models/users.js: the fields the routes
consult are the identity and the isAdmin flag). -/
structure User where
  id : Nat
  isAdmin : Bool
deriving DecidableEq

/-- The whitespace trim that both the express-validator `trim()` sanitizer
and the mongoose `trim: true` schema option apply: strip leading and trailing
whitespace.  (Defined over the character list so that it evaluates by kernel
reduction.) -/
def jsTrim (s : String) : String :=
  ⟨((s.data.dropWhile Char.isWhitespace).reverse.dropWhile Char.isWhitespace).reverse⟩

/-- `Model.findById` / a filter on `_id`: the first record with the given id. -/
def findById {α : Type} (key : α → Nat) (i : Nat) (l : List α) : Option α :=
  l.find? (fun a => key a == i)

/-- A single-document update on the record with the given id
(`findOneAndUpdate` / assign-then-`save`). -/
def updateById {α : Type} (key : α → Nat) (i : Nat) (f : α → α) (l : List α) : List α :=
  l.map (fun a => if key a = i then f a else a)

/-- `deleteOne` / `findByIdAndDelete` on the given id. -/
def deleteById {α : Type} (key : α → Nat) (i : Nat) (l : List α) : List α :=
  l.filter (fun a => key a != i)

/-- The express-validator chain both blog routers run on create and update:
`body(title).trim().notEmpty()` and `body(content).isLength({ min: 10 })`. -/
def routeValidBlogV1 (title content : String) : Bool :=
  !(jsTrim title).isEmpty && decide (10 ≤ content.length)

/-- Mongoose validation of a v1 Blog document on `save()`
(src/models/blogs.js: title required and at most 100 chars, content required
and at least 10 chars; the schema trims both). -/
def blogSaveValidV1 (b : Blog) : Bool :=
  !b.title.isEmpty && decide (b.title.length ≤ 100) &&
  !b.content.isEmpty && decide (10 ≤ b.content.length)

/-- Mongoose validation shared by both Comment schemas on `save()`:
text required with minlength 5, author required
(src/models/comments.js, src/models/commentV2.js). -/
def commentSaveValid (text : String) (author : Option Nat) : Bool :=
  !text.isEmpty && decide (5 ≤ text.length) && author.isSome

/-- `blogRouter.get(/:id)` (src/routes/blogRoutes.js): `findOneAndUpdate`
on `_id` alone with `$inc: { views: 1 }`; 404 when no blog has that id. -/
def getBlogV1 (s : StateV1) (i : Nat) : Resp × StateV1 :=
  match findById Blog.id i s.blogs with
  | none => (.notFound, s)
  | some _ =>
    (.ok, { s with blogs := updateById Blog.id i (fun b => { b with views := b.views + 1 }) s.blogs })

/-- `blogRouter.post(/)` (src/routes/blogRoutes.js): validate, then save a
new Blog with author = the authenticated user, image from the upload, and the
schema defaults (views 0, isPublished false, no comments). -/
def createBlogV1 (s : StateV1) (userId freshId : Nat) (title content : String)
    (file : Option String) : Resp × StateV1 :=
  if routeValidBlogV1 title content then
    let b : Blog :=
      { id := freshId, title := jsTrim title, content := jsTrim content, author := userId,
        image := file, comments := [], views := 0, isPublished := false }
    if blogSaveValidV1 b then (.created, { s with blogs := s.blogs ++ [b] })
    else (.serverError, s)
  else (.validationFailed, s)

/-- `blogRouter.put(/:id/publish)` (src/routes/blogRoutes.js): load the
blog (404), reject a non-author with 403, else set isPublished to true. -/
def publishBlogV1 (s : StateV1) (userId i : Nat) : Resp × StateV1 :=
  match findById Blog.id i s.blogs with
  | none => (.notFound, s)
  | some b =>
    if b.author ≠ userId then (.forbidden, s)
    else (.ok, { s with blogs := updateById Blog.id i (fun bb => { bb with isPublished := true }) s.blogs })

/-- The body of the v1 blog update request: the fields
`blogRouter.put(/:id)` destructures from it. -/
structure UpdateBodyV1 where
  title : String
  content : String
  isPublished : Bool
  image : Option String
deriving DecidableEq

/-- `const image = req.file ? req.file.path : req.body.image`: the upload
path when a file came with the request, else the body field. -/
def reqImage (file bodyImage : Option String) : Option String :=
  match file with | some p => some p | none => bodyImage

/-- The assignments `blogRouter.put(/:id)` performs on the loaded blog:
title, content and isPublished come from the body, the image is overwritten
only when one is present; author and views are not assigned. -/
def applyUpdateV1 (body : UpdateBodyV1) (image : Option String) (bb : Blog) : Blog :=
  { bb with title := jsTrim body.title, content := jsTrim body.content,
            isPublished := body.isPublished,
            image := match image with | some im => some im | none => bb.image }

/-- `blogRouter.put(/:id)` (src/routes/blogRoutes.js): validate, load the
blog (404), reject a non-author with 403, then assign title, content,
isPublished from the body, the image when one is present, and save. -/
def updateBlogV1 (s : StateV1) (userId i : Nat) (body : UpdateBodyV1)
    (file : Option String) : Resp × StateV1 :=
  if routeValidBlogV1 body.title body.content then
    let image : Option String := reqImage file body.image
    match findById Blog.id i s.blogs with
    | none => (.notFound, s)
    | some b =>
      if b.author ≠ userId then (.forbidden, s)
      else
        if blogSaveValidV1 (applyUpdateV1 body image b) then
          (.ok, { s with blogs := updateById Blog.id i (applyUpdateV1 body image) s.blogs })
        else (.serverError, s)
  else (.validationFailed, s)

/-- `blogRouter.delete(/:id)` (src/routes/blogRoutes.js): load the blog
(404), reject a non-author with 403, else `Blog.deleteOne` on the id; the
Comment collection is not touched. -/
def deleteBlogV1 (s : StateV1) (userId i : Nat) : Resp × StateV1 :=
  match findById Blog.id i s.blogs with
  | none => (.notFound, s)
  | some b =>
    if b.author ≠ userId then (.forbidden, s)
    else (.ok, { s with blogs := deleteById Blog.id i s.blogs })

/-- `commentRouter.post(/:blogId)` (src/routes/commentRoutes.js): the blog
param middleware loads the blog (404); the route validates the text and
builds a Comment from text and the blog id — the schema drops the blog field
(no such path, strict mode) and the route never attaches an author and runs
no authentication — saves it, and only then pushes its id onto the blog. -/
def createCommentV1 (s : StateV1) (blogId freshId : Nat) (text : String) : Resp × StateV1 :=
  match findById Blog.id blogId s.blogs with
  | none => (.notFound, s)
  | some _ =>
    if !(jsTrim text).isEmpty then
      let c : Comment := { id := freshId, text := jsTrim text, author := none }
      if commentSaveValid c.text c.author then
        (.created,
          { s with comments := s.comments ++ [c],
                   blogs := updateById Blog.id blogId
                     (fun b => { b with comments := b.comments ++ [c.id] }) s.blogs })
      else (.serverError, s)
    else (.validationFailed, s)

/-- `commentRouter.delete(/:commentId)` (src/routes/commentRoutes.js): the
param middleware loads the comment (404); the route compares the comment
author to the principal (403 on mismatch; a missing author makes the
comparison throw, surfaced as 500), then runs Comments.deleteOne on the
comment and Blog.updateOne({ _id: req.comment.blog }, { $pull: ... }).
Because the persisted comment carries no blog reference (see `Comment`),
req.comment.blog is undefined and the updateOne matches no stored blog: the
comment record is removed but the blogs collection is unchanged, leaving the
deleted id dangling in the comments array of the blog that referenced it. -/
def deleteCommentV1 (s : StateV1) (userId cid : Nat) : Resp × StateV1 :=
  match findById Comment.id cid s.comments with
  | none => (.notFound, s)
  | some c =>
    match c.author with
    | none => (.serverError, s)
    | some a =>
      if a ≠ userId then (.forbidden, s)
      else (.ok, { s with comments := deleteById Comment.id cid s.comments })

/-- `blogRouterV2.get(/:id)` (src/routes/blogRoutesV2.js):
`findOneAndUpdate` on `{ _id, isPublished: true }` with `$inc: { views: 1 }`;
404 when no published blog has that id, and then nothing is updated. -/
def getBlogV2 (s : StateV2) (i : Nat) : Resp × StateV2 :=
  match s.blogs.find? (fun b => b.id == i && b.isPublished) with
  | none => (.notFound, s)
  | some _ =>
    let bump : BlogV2 → BlogV2 := fun b =>
      if b.id == i && b.isPublished then { b with views := b.views + 1 } else b
    (.ok, { s with blogs := s.blogs.map bump })

/-- The body fields `blogRouterV2.post(/)` and `blogRouterV2.put(/:id)`
destructure from the request. -/
structure BodyV2 where
  title : String
  content : String
  categories : List Nat
  tags : List String
  seoTitle : String
  seoDescription : String
  seoKeywords : List String
deriving DecidableEq

/-- The express-validator chain of the v2 blog create and update routes:
title trimmed, non-empty and at most 100 chars; content at least 10 chars;
seoTitle trimmed, non-empty and at most 60 chars; seoDescription trimmed,
non-empty and at most 160 chars. -/
def routeValidBlogV2 (b : BodyV2) : Bool :=
  !(jsTrim b.title).isEmpty && decide ((jsTrim b.title).length ≤ 100) &&
  decide (10 ≤ b.content.length) &&
  !(jsTrim b.seoTitle).isEmpty && decide ((jsTrim b.seoTitle).length ≤ 60) &&
  !(jsTrim b.seoDescription).isEmpty && decide ((jsTrim b.seoDescription).length ≤ 160)

/-- `blogRouterV2.post(/)` (src/routes/blogRoutesV2.js): validate, then
save a new BlogV2 with author = the authenticated user and the schema
defaults (views 0, isPublished false, empty comment/like sets).  The route
validation already implies every schema constraint, so `save()` succeeds. -/
def createBlogV2 (s : StateV2) (userId freshId : Nat) (body : BodyV2)
    (file : Option String) : Resp × StateV2 :=
  if routeValidBlogV2 body then
    let b : BlogV2 :=
      { id := freshId, title := jsTrim body.title, content := body.content,
        author := userId, image := file, comments := [], views := 0,
        isPublished := false, categories := body.categories,
        tags := body.tags.map jsTrim, likes := [],
        seoTitle := jsTrim body.seoTitle,
        seoDescription := jsTrim body.seoDescription,
        seoKeywords := body.seoKeywords.map jsTrim }
    (.created, { s with blogs := s.blogs ++ [b] })
  else (.validationFailed, s)

/-- `blogRouterV2.put(/:id/publish)` (src/routes/blogRoutesV2.js): load
the blog (404), reject a non-author with status 401, else set isPublished
to true. -/
def publishBlogV2 (s : StateV2) (userId i : Nat) : Resp × StateV2 :=
  match findById BlogV2.id i s.blogs with
  | none => (.notFound, s)
  | some b =>
    if b.author ≠ userId then (.unauthorized, s)
    else (.ok, { s with blogs := updateById BlogV2.id i (fun bb => { bb with isPublished := true }) s.blogs })

/-- The assignments `blogRouterV2.put(/:id)` performs on the loaded blog:
title, content, categories, tags and the SEO fields come from the body, the
image is overwritten only when an upload is present; author, views and
isPublished are not assigned. -/
def applyUpdateV2 (body : BodyV2) (file : Option String) (bb : BlogV2) : BlogV2 :=
  { bb with title := jsTrim body.title, content := body.content,
            categories := body.categories, tags := body.tags.map jsTrim,
            seoTitle := jsTrim body.seoTitle,
            seoDescription := jsTrim body.seoDescription,
            seoKeywords := body.seoKeywords.map jsTrim,
            image := match file with | some im => some im | none => bb.image }

/-- `blogRouterV2.put(/:id)` (src/routes/blogRoutesV2.js): validate, load
the blog (404), reject a non-author with status 401, then apply the update
assignments and save. -/
def updateBlogV2 (s : StateV2) (userId i : Nat) (body : BodyV2)
    (file : Option String) : Resp × StateV2 :=
  if routeValidBlogV2 body then
    match findById BlogV2.id i s.blogs with
    | none => (.notFound, s)
    | some b =>
      if b.author ≠ userId then (.unauthorized, s)
      else (.ok, { s with blogs := updateById BlogV2.id i (applyUpdateV2 body file) s.blogs })
  else (.validationFailed, s)

/-- `blogRouterV2.delete(/:id)` (src/routes/blogRoutesV2.js): load the
blog (404), reject a non-author with 403, else delete the blog document; the
CommentV2 collection is not touched. -/
def deleteBlogV2 (s : StateV2) (userId i : Nat) : Resp × StateV2 :=
  match findById BlogV2.id i s.blogs with
  | none => (.notFound, s)
  | some b =>
    if b.author ≠ userId then (.forbidden, s)
    else (.ok, { s with blogs := deleteById BlogV2.id i s.blogs })

/-- `blogRouterV2.post(/:id/like)` (src/routes/blogRoutesV2.js): load the
blog (404); if the likes array already includes the user answer 400 with the
already-liked message and change nothing, else push the user onto likes. -/
def likeBlogV2 (s : StateV2) (userId i : Nat) : Resp × StateV2 :=
  match findById BlogV2.id i s.blogs with
  | none => (.notFound, s)
  | some b =>
    if b.likes.contains userId then
      (.badRequest ("You have already liked this blog"), s)
    else
      let push : BlogV2 → BlogV2 := fun bb => { bb with likes := bb.likes ++ [userId] }
      (.ok, { s with blogs := updateById BlogV2.id i push s.blogs })

/-- `blogRouterV2.post(/:id/unlike)` (src/routes/blogRoutesV2.js): load
the blog (404); if the likes array includes the user, filter the user out
and save; either way answer 200. -/
def unlikeBlogV2 (s : StateV2) (userId i : Nat) : Resp × StateV2 :=
  match findById BlogV2.id i s.blogs with
  | none => (.notFound, s)
  | some b =>
    if b.likes.contains userId then
      let strip : BlogV2 → BlogV2 := fun bb => { bb with likes := bb.likes.filter (fun u => u != userId) }
      (.ok, { s with blogs := updateById BlogV2.id i strip s.blogs })
    else (.ok, s)

/-- The express-validator chain of the v2 comment and reply routes:
`body(text).trim().notEmpty().isLength({ min: 5 })`. -/
def routeValidCommentV2 (text : String) : Bool :=
  !(jsTrim text).isEmpty && decide (5 ≤ (jsTrim text).length)

/-- `commentRouterV2.post(/)` (src/routes/commentRoutesV2.js, mounted at
`/:blogId/comments`): the blogId param middleware loads the blog (404); the
route validates the text and builds a CommentV2 whose author is the
authenticated user when one is present and null otherwise (no authentication
middleware runs on this route); `save()` enforces the schema (author
required), and only after a successful save is the comment id pushed onto
the blog. -/
def createCommentV2 (s : StateV2) (principal : Option Nat) (blogId freshId : Nat)
    (text : String) : Resp × StateV2 :=
  match findById BlogV2.id blogId s.blogs with
  | none => (.notFound, s)
  | some _ =>
    if routeValidCommentV2 text then
      let c : CommentV2 := { id := freshId, text := jsTrim text, author := principal, replies := [] }
      if commentSaveValid c.text c.author then
        (.created,
          { s with comments := s.comments ++ [c],
                   blogs := updateById BlogV2.id blogId
                     (fun b => { b with comments := b.comments ++ [c.id] }) s.blogs })
      else (.serverError, s)
    else (.validationFailed, s)

/-- `commentRouterV2.post(/:commentId/replies)` (src/routes/commentRoutesV2.js):
the param middlewares load the blog and the parent comment (404); the route
validates the text and builds a CommentV2 whose author is the authenticated
user when one is present and null otherwise; after a successful `save()` the
reply id is pushed onto the parent comment. -/
def createReplyV2 (s : StateV2) (principal : Option Nat) (blogId parentId freshId : Nat)
    (text : String) : Resp × StateV2 :=
  match findById BlogV2.id blogId s.blogs with
  | none => (.notFound, s)
  | some _ =>
  match findById CommentV2.id parentId s.comments with
  | none => (.notFound, s)
  | some _ =>
    if routeValidCommentV2 text then
      let c : CommentV2 := { id := freshId, text := jsTrim text, author := principal, replies := [] }
      if commentSaveValid c.text c.author then
        (.created,
          { s with comments :=
              (updateById CommentV2.id parentId
                (fun p => { p with replies := p.replies ++ [c.id] }) s.comments) ++ [c] })
      else (.serverError, s)
    else (.validationFailed, s)

/-- `commentRouterV2.delete(/:commentId)` (src/routes/commentRoutesV2.js):
the param middlewares load the blog and the comment (404);
`customPassportAuth` plus `isAdmin` reject a non-admin principal with 403;
then `findByIdAndDelete` removes the comment, `BlogV2.updateMany` pulls its
id from the comments array of every blog containing it, and
`CommentV2.updateMany` pulls it from the replies array of every comment
containing it. -/
def deleteCommentV2 (s : StateV2) (user : User) (blogId cid : Nat) : Resp × StateV2 :=
  match findById BlogV2.id blogId s.blogs with
  | none => (.notFound, s)
  | some _ =>
  match findById CommentV2.id cid s.comments with
  | none => (.notFound, s)
  | some _ =>
    if !user.isAdmin then (.forbidden, s)
    else
      (.ok,
        { s with
            comments := (deleteById CommentV2.id cid s.comments).map
              (fun c => { c with replies := c.replies.filter (fun x => x != cid) }),
            blogs := s.blogs.map
              (fun b => { b with comments := b.comments.filter (fun x => x != cid) }) })

/-- N successive requests to the v1 single-blog endpoint. -/
def iterGetV1 (s : StateV1) (i : Nat) : Nat → StateV1
  | 0 => s
  | n + 1 => (getBlogV1 (iterGetV1 s i n) i).2

/-- N successive requests to the v2 single-blog endpoint. -/
def iterGetV2 (s : StateV2) (i : Nat) : Nat → StateV2
  | 0 => s
  | n + 1 => (getBlogV2 (iterGetV2 s i n) i).2

/-- The publish-state relation used by the no-unpublish claims: every record
that is published (flag true) before an operation is still published
afterwards, records being identified by their id. -/
def noDowngrade {α : Type} (key : α → Nat) (flag : α → Bool) (l l' : List α) : Prop :=
  ∀ a ∈ l, flag a = true → ∀ a' ∈ l', key a' = key a → flag a' = true

/-- No published v1 blog becomes unpublished between the two states. -/
def noUnpubV1 (s s' : StateV1) : Prop :=
  noDowngrade Blog.id Blog.isPublished s.blogs s'.blogs

/-- No published v2 blog becomes unpublished between the two states. -/
def noUnpubV2 (s s' : StateV2) : Prop :=
  noDowngrade BlogV2.id BlogV2.isPublished s.blogs s'.blogs

/-! Concrete sample stores used by the closed-form counterexamples and
witnesses. -/

/-- A published v1 blog owned by user 7. -/
def blogA : Blog :=
  { id := 1, title := "T", content := "0123456789", author := 7,
    image := none, comments := [], views := 0, isPublished := true }

/-- A v1 store holding one published blog owned by user 7. -/
def sampleV1 : StateV1 := { blogs := [blogA], comments := [] }

/-- A v1 update body that keeps title and content but carries
isPublished = false. -/
def unpubBody : UpdateBodyV1 :=
  { title := "T", content := "0123456789", isPublished := false, image := none }

/-- A v1 comment by user 8 (no blog reference is persisted). -/
def cmtA : Comment := { id := 10, text := "nice post", author := some 8 }

/-- A v1 store holding one blog owned by user 7 that references comment 10,
and that comment. -/
def sampleV1WithComment : StateV1 :=
  { blogs := [{ id := 1, title := "T", content := "0123456789", author := 7,
                image := none, comments := [10], views := 0, isPublished := true }],
    comments := [cmtA] }

/-- An unpublished v2 blog owned by user 7. -/
def blogB : BlogV2 :=
  { id := 1, title := "T", content := "0123456789", author := 7,
    image := none, comments := [], views := 0, isPublished := false,
    categories := [], tags := [], likes := [], seoTitle := "s",
    seoDescription := "d", seoKeywords := [] }

/-- A published v2 blog owned by user 7. -/
def blogP : BlogV2 := { blogB with isPublished := true }

/-- A v2 store holding one unpublished blog owned by user 7. -/
def sampleV2 : StateV2 := { blogs := [blogB], comments := [] }

/-- A v2 store holding one published blog owned by user 7. -/
def sampleV2Pub : StateV2 := { blogs := [blogP], comments := [] }

/-- A v2 store holding one blog that references comment 10, comment 10 with
reply 11 in its replies array, and the reply itself. -/
def sampleV2Thread : StateV2 :=
  { blogs := [{ id := 1, title := "T", content := "0123456789", author := 7,
                image := none, comments := [10], views := 0, isPublished := true,
                categories := [], tags := [], likes := [], seoTitle := "s",
                seoDescription := "d", seoKeywords := [] }],
    comments := [{ id := 10, text := "hello", author := some 4, replies := [11] },
                 { id := 11, text := "reply", author := some 5, replies := [] }] }

/-- A published v2 blog owned by user 7 already liked by user 8. -/
def blogL : BlogV2 := { blogB with isPublished := true, likes := [8] }

/-- A v2 store holding one published blog already liked by user 8. -/
def sampleV2Liked : StateV2 := { blogs := [blogL], comments := [] }

/-- The empty v1 store. -/
def emptyV1 : StateV1 := { blogs := [], comments := [] }

/-- The empty v2 store. -/
def emptyV2 : StateV2 := { blogs := [], comments := [] }

/-! Store lemmas: how `findById` interacts with the update primitives. -/

theorem findById_some_key {α : Type} {key : α → Nat} {i : Nat} {l : List α} {a : α}
    (h : findById key i l = some a) : key a = i := by
  have := List.find?_some h
  simpa using this

theorem findById_map_key {α : Type} (key : α → Nat) (i : Nat) (g : α → α)
    (hg : ∀ a, key (g a) = key a) (l : List α) :
    findById key i (l.map g) = (findById key i l).map g := by
  induction l with
  | nil => rfl
  | cons a t ih =>
    by_cases h : key a = i
    · simp [findById, List.find?_cons, hg, h]
    · simpa [findById, List.find?_cons, hg, h] using ih

theorem findById_updateById {α : Type} (key : α → Nat) (i : Nat) (f : α → α)
    (hf : ∀ a, key (f a) = key a) (l : List α) :
    findById key i (updateById key i f l) = (findById key i l).map f := by
  have hg : ∀ a, key (if key a = i then f a else a) = key a := by
    intro a; by_cases h : key a = i <;> simp [h, hf]
  rw [updateById, findById_map_key key i _ hg]
  cases hfind : findById key i l with
  | none => rfl
  | some a => simp [findById_some_key hfind]

theorem findById_updateById_ne {α : Type} (key : α → Nat) (i j : Nat) (f : α → α)
    (hne : i ≠ j) (hf : ∀ a, key (f a) = key a) (l : List α) :
    findById key j (updateById key i f l) = findById key j l := by
  induction l with
  | nil => rfl
  | cons a t ih =>
    by_cases h : key a = i
    · simp [findById, updateById, List.find?_cons, hf, h, hne] at ih ⊢
      exact ih
    · by_cases h2 : key a = j
      · simp [findById, updateById, List.find?_cons, h, h2, Ne.symm hne]
      · simp [findById, updateById, List.find?_cons, h, h2] at ih ⊢
        exact ih

theorem noDowngrade_of_sub {α : Type} {key : α → Nat} {flag : α → Bool} {l l' : List α}
    (hnd : (l.map key).Nodup) (hsub : ∀ a ∈ l', a ∈ l) :
    noDowngrade key flag l l' := by
  intro a ha hf a' ha' hk
  have : a' = a := List.inj_on_of_nodup_map hnd (hsub a' ha') ha hk
  rw [this]; exact hf

theorem noDowngrade_refl {α : Type} {key : α → Nat} {flag : α → Bool} {l : List α}
    (hnd : (l.map key).Nodup) : noDowngrade key flag l l :=
  noDowngrade_of_sub hnd (fun _ h => h)

theorem noDowngrade_map {α : Type} {key : α → Nat} {flag : α → Bool} {l : List α}
    (g : α → α) (hnd : (l.map key).Nodup)
    (hkey : ∀ a, key (g a) = key a)
    (hflag : ∀ a, flag a = true → flag (g a) = true) :
    noDowngrade key flag l (l.map g) := by
  intro a ha hf a' ha' hk
  rcases List.mem_map.mp ha' with ⟨x, hx, rfl⟩
  have hxk : key x = key a := by rw [← hkey x]; exact hk
  have : x = a := List.inj_on_of_nodup_map hnd hx ha hxk
  rw [this]; exact hflag a hf

theorem noDowngrade_filter {α : Type} {key : α → Nat} {flag : α → Bool} {l : List α}
    (p : α → Bool) (hnd : (l.map key).Nodup) :
    noDowngrade key flag l (l.filter p) :=
  noDowngrade_of_sub hnd (fun _ ha => (List.mem_filter.mp ha).1)

theorem noDowngrade_append {α : Type} {key : α → Nat} {flag : α → Bool} {l : List α}
    (x : α) (hnd : (l.map key).Nodup) (hfresh : key x ∉ l.map key) :
    noDowngrade key flag l (l ++ [x]) := by
  intro a ha hf a' ha' hk
  rcases List.mem_append.mp ha' with h | h
  · have : a' = a := List.inj_on_of_nodup_map hnd h ha hk
    rw [this]; exact hf
  · rcases List.mem_singleton.mp h with rfl
    exact absurd (hk ▸ List.mem_map_of_mem key ha) hfresh

/-! Lemmas about the v2 single-blog endpoint, whose filter combines the id
with the publish flag. -/

theorem findPub_of_findById (l : List BlogV2) (i : Nat) (b : BlogV2)
    (h : findById BlogV2.id i l = some b) (hpub : b.isPublished = true) :
    l.find? (fun x => x.id == i && x.isPublished) = some b := by
  induction l with
  | nil => simp [findById] at h
  | cons a t ih =>
    by_cases ha : a.id = i
    · have hb : findById BlogV2.id i (a :: t) = some a := by
        unfold findById
        exact List.find?_cons_of_pos t (by simp [ha])
      rw [hb] at h
      injection h with h
      subst h
      exact List.find?_cons_of_pos t (by simp [ha, hpub])
    · have h' : findById BlogV2.id i t = some b := by
        unfold findById at h
        rwa [List.find?_cons_of_neg t (by simp [ha])] at h
      rw [List.find?_cons_of_neg t (by simp [ha])]
      exact ih h'

theorem findById_bumpPub (l : List BlogV2) (i : Nat) (b : BlogV2)
    (h : findById BlogV2.id i l = some b) (hpub : b.isPublished = true) :
    findById BlogV2.id i
      (l.map (fun x => if x.id == i && x.isPublished then { x with views := x.views + 1 } else x)) =
      some { b with views := b.views + 1 } := by
  induction l with
  | nil => simp [findById] at h
  | cons a t ih =>
    by_cases ha : a.id = i
    · have hb : findById BlogV2.id i (a :: t) = some a := by
        unfold findById
        exact List.find?_cons_of_pos t (by simp [ha])
      rw [hb] at h
      injection h with h
      subst h
      unfold findById
      simp only [List.map_cons]
      rw [if_pos (by simp [ha, hpub])]
      exact List.find?_cons_of_pos _ (by simp [ha])
    · have h' : findById BlogV2.id i t = some b := by
        unfold findById at h
        rwa [List.find?_cons_of_neg t (by simp [ha])] at h
      have ht := ih h'
      unfold findById at ht ⊢
      simp only [List.map_cons]
      rw [if_neg (by simp [ha])]
      rw [List.find?_cons_of_neg _ (by simp [ha])]
      exact ht

/-- One successful v2 fetch of a published blog: 200, and views go up by
exactly one. -/
theorem getBlogV2_step (s : StateV2) (i : Nat) (b : BlogV2)
    (h : findById BlogV2.id i s.blogs = some b) (hpub : b.isPublished = true) :
    (getBlogV2 s i).1 = Resp.ok ∧
    findById BlogV2.id i ((getBlogV2 s i).2).blogs = some { b with views := b.views + 1 } := by
  unfold getBlogV2
  rw [findPub_of_findById s.blogs i b h hpub]
  exact ⟨rfl, findById_bumpPub s.blogs i b h hpub⟩

/-- One successful v1 fetch of a blog: 200, and views go up by exactly one. -/
theorem getBlogV1_step (s : StateV1) (i : Nat) (b : Blog)
    (h : findById Blog.id i s.blogs = some b) :
    (getBlogV1 s i).1 = Resp.ok ∧
    findById Blog.id i ((getBlogV1 s i).2).blogs = some { b with views := b.views + 1 } := by
  unfold getBlogV1
  rw [h]
  refine ⟨rfl, ?_⟩
  rw [findById_updateById Blog.id i (fun bb => { bb with views := bb.views + 1 })
    (fun _ => rfl) s.blogs, h]
  rfl

/-- Claim C8: fetching a published Blog N times in sequence through the
single-get-by-ID endpoint answers 200 each time and increments its views
counter by exactly N — each successful fetch adds exactly one view.  Proved
for the v2 endpoint (which filters on the publish flag) and the v1 endpoint
(which matches on the id alone, so in particular on published blogs). -/
theorem c8_view_count_increment :
    (∀ (s : StateV2) (i : Nat) (b : BlogV2) (n : Nat),
        findById BlogV2.id i s.blogs = some b → b.isPublished = true →
        (getBlogV2 s i).1 = Resp.ok ∧
        findById BlogV2.id i (iterGetV2 s i n).blogs = some { b with views := b.views + n })
    ∧
    (∀ (s : StateV1) (i : Nat) (b : Blog) (n : Nat),
        findById Blog.id i s.blogs = some b → b.isPublished = true →
        (getBlogV1 s i).1 = Resp.ok ∧
        findById Blog.id i (iterGetV1 s i n).blogs = some { b with views := b.views + n }) := by
  constructor
  · intro s i b n h hpub
    refine ⟨(getBlogV2_step s i b h hpub).1, ?_⟩
    induction n with
    | zero => simpa using h
    | succ m ih => exact (getBlogV2_step (iterGetV2 s i m) i _ ih hpub).2
  · intro s i b n h _
    refine ⟨(getBlogV1_step s i b h).1, ?_⟩
    induction n with
    | zero => simpa using h
    | succ m ih => exact (getBlogV1_step (iterGetV1 s i m) i _ ih).2

/-- Witness for C8: three fetches of the sample published blog answer 200 and
leave it with three views. -/
theorem c8_witness :
    (getBlogV2 sampleV2Pub 1).1 = Resp.ok ∧
    findById BlogV2.id 1 (iterGetV2 sampleV2Pub 1 3).blogs =
      some { blogP with views := blogP.views + 3 } :=
  c8_view_count_increment.1 sampleV2Pub 1 blogP 3 (by decide) (by decide)

/-- Claim C9: whenever the single-get-by-ID endpoint answers 404 — the v1
endpoint when no blog has the id, the v2 endpoint when no published blog has
the id — the store is returned unchanged, so the views counter of every blog
is untouched by that request. -/
theorem c9_notfound_preserves_views :
    (∀ (s : StateV1) (i : Nat), (getBlogV1 s i).1 = Resp.notFound → (getBlogV1 s i).2 = s)
    ∧
    (∀ (s : StateV2) (i : Nat), (getBlogV2 s i).1 = Resp.notFound → (getBlogV2 s i).2 = s) := by
  constructor
  · intro s i h
    unfold getBlogV1 at h ⊢
    cases hf : findById Blog.id i s.blogs with
    | none => rfl
    | some b => rw [hf] at h; simp at h
  · intro s i h
    unfold getBlogV2 at h ⊢
    cases hf : s.blogs.find? (fun b => b.id == i && b.isPublished) with
    | none => rfl
    | some b => rw [hf] at h; simp at h

/-- Witness for C9: a get on an empty store 404s and returns it unchanged. -/
theorem c9_witness :
    (getBlogV1 emptyV1 1).2 = emptyV1 ∧ (getBlogV2 emptyV2 1).2 = emptyV2 :=
  ⟨c9_notfound_preserves_views.1 emptyV1 1 (by decide),
   c9_notfound_preserves_views.2 emptyV2 1 (by decide)⟩

/-- A projection that the per-record update leaves alone is left alone across
the whole store. -/
theorem updateById_map_proj {α β : Type} (key : α → Nat) (i : Nat) (f : α → α) (p : α → β)
    (hp : ∀ a, p (f a) = p a) (l : List α) :
    (updateById key i f l).map p = l.map p := by
  unfold updateById
  rw [List.map_map]
  refine List.map_congr_left ?_
  intro a _
  by_cases h : key a = i <;> simp [h, hp]

/-- Bridging lemma: a Bool-level contains false is a non-membership. -/
theorem contains_eq_false_iff (l : List Nat) (a : Nat) : l.contains a = false ↔ a ∉ l := by
  simp

/-- Bridging lemma: contains false refutes the if-condition of the like and
unlike handlers. -/
theorem ne_true_of_contains_false {l : List Nat} {a : Nat} (h : l.contains a = false) :
    ¬(l.contains a = true) := by
  rw [h]
  simp

/-- Claim C3: the author field set at blog creation is never reassigned by a
blog update: both update endpoints leave the (id, author) pairs of the whole
blog store unchanged, on every code path (in particular on every successful
update). -/
theorem c3_author_immutable :
    (∀ (s : StateV1) (userId i : Nat) (body : UpdateBodyV1) (file : Option String),
        ((updateBlogV1 s userId i body file).2).blogs.map (fun b => (b.id, b.author)) =
          s.blogs.map (fun b => (b.id, b.author)))
    ∧
    (∀ (s : StateV2) (userId i : Nat) (body : BodyV2) (file : Option String),
        ((updateBlogV2 s userId i body file).2).blogs.map (fun b => (b.id, b.author)) =
          s.blogs.map (fun b => (b.id, b.author))) := by
  constructor
  · intro s userId i body file
    unfold updateBlogV1
    repeat' split
    all_goals dsimp only
    repeat' split
    all_goals first
      | rfl
      | (apply updateById_map_proj; intro a; rfl)
  · intro s userId i body file
    unfold updateBlogV2
    repeat' split
    all_goals dsimp only
    all_goals first
      | rfl
      | (apply updateById_map_proj; intro a; rfl)

/-- Claim C6: a Like when the user is already in the likes set fails with the
already-liked error and changes nothing; a Like when the user is absent adds
exactly that user; and the at-most-once invariant on the likes set is
preserved. -/
theorem c6_like_at_most_once :
    ∀ (s : StateV2) (userId i : Nat) (b : BlogV2),
      findById BlogV2.id i s.blogs = some b →
      (b.likes.contains userId = true →
          likeBlogV2 s userId i = (Resp.badRequest ("You have already liked this blog"), s))
      ∧
      (b.likes.contains userId = false →
          (likeBlogV2 s userId i).1 = Resp.ok ∧
          findById BlogV2.id i ((likeBlogV2 s userId i).2).blogs =
            some { b with likes := b.likes ++ [userId] })
      ∧
      (b.likes.count userId ≤ 1 →
          ∀ b', findById BlogV2.id i ((likeBlogV2 s userId i).2).blogs = some b' →
            b'.likes.count userId ≤ 1) := by
  intro s userId i b hfind
  refine ⟨?_, ?_, ?_⟩
  · intro hliked
    unfold likeBlogV2
    rw [hfind]
    dsimp only
    rw [if_pos hliked]
  · intro hnot
    unfold likeBlogV2
    rw [hfind]
    dsimp only
    rw [if_neg (ne_true_of_contains_false hnot)]
    refine ⟨rfl, ?_⟩
    dsimp only
    rw [findById_updateById BlogV2.id i (fun bb => { bb with likes := bb.likes ++ [userId] })
      (fun _ => rfl) s.blogs, hfind]
    rfl
  · intro hcount b' hb'
    unfold likeBlogV2 at hb'
    rw [hfind] at hb'
    dsimp only at hb'
    cases hc : b.likes.contains userId with
    | true =>
      rw [if_pos hc] at hb'
      dsimp only at hb'
      rw [hfind] at hb'
      injection hb' with hb'
      subst hb'
      exact hcount
    | false =>
      rw [if_neg (ne_true_of_contains_false hc)] at hb'
      dsimp only at hb'
      rw [findById_updateById BlogV2.id i (fun bb => { bb with likes := bb.likes ++ [userId] })
        (fun _ => rfl) s.blogs, hfind] at hb'
      injection hb' with hb'
      subst hb'
      have hmem : userId ∉ b.likes := (contains_eq_false_iff _ _).mp hc
      show (b.likes ++ [userId]).count userId ≤ 1
      rw [List.count_append, List.count_eq_zero.mpr hmem]
      simp

/-- Claim C7: Unlike is idempotent — when the user is not in the likes set it
answers 200 and returns the store unchanged, and running it twice gives the
same store as running it once. -/
theorem c7_unlike_idempotent :
    ∀ (s : StateV2) (userId i : Nat),
      (∀ b, findById BlogV2.id i s.blogs = some b → userId ∉ b.likes →
          unlikeBlogV2 s userId i = (Resp.ok, s))
      ∧
      (unlikeBlogV2 (unlikeBlogV2 s userId i).2 userId i).2 = (unlikeBlogV2 s userId i).2 := by
  intro s userId i
  constructor
  · intro b hfind hmem
    unfold unlikeBlogV2
    rw [hfind]
    dsimp only
    have hc : b.likes.contains userId = false := (contains_eq_false_iff _ _).mpr hmem
    rw [if_neg (ne_true_of_contains_false hc)]
  · cases hf : findById BlogV2.id i s.blogs with
    | none =>
      have h1 : (unlikeBlogV2 s userId i).2 = s := by
        unfold unlikeBlogV2
        rw [hf]
      rw [h1, h1]
    | some b =>
      cases hc : b.likes.contains userId with
      | false =>
        have h1 : (unlikeBlogV2 s userId i).2 = s := by
          unfold unlikeBlogV2
          rw [hf]
          dsimp only
          rw [if_neg (ne_true_of_contains_false hc)]
        rw [h1, h1]
      | true =>
        have h1 : (unlikeBlogV2 s userId i).2 = { s with blogs := updateById BlogV2.id i (fun bb => { bb with likes := bb.likes.filter (fun u => u != userId) }) s.blogs } := by
          unfold unlikeBlogV2
          rw [hf]
          dsimp only
          rw [if_pos hc]
        rw [h1]
        have h2 : findById BlogV2.id i
            (updateById BlogV2.id i
              (fun bb => { bb with likes := bb.likes.filter (fun u => u != userId) }) s.blogs) =
            some { b with likes := b.likes.filter (fun u => u != userId) } := by
          rw [findById_updateById BlogV2.id i
            (fun bb => { bb with likes := bb.likes.filter (fun u => u != userId) })
            (fun _ => rfl) s.blogs, hf]
          rfl
        have hc2 : (b.likes.filter (fun u => u != userId)).contains userId = false := by
          rw [contains_eq_false_iff]
          simp [List.mem_filter]
        conv_lhs => rw [unlikeBlogV2]
        rw [h2]
        dsimp only
        rw [if_neg (ne_true_of_contains_false hc2)]

/-- Witness for C6: the already-liked store rejects a second like by user 8
and keeps its state; the fresh published store accepts a like by user 8 and
records exactly that user. -/
theorem c6_witness :
    likeBlogV2 sampleV2Liked 8 1 = (Resp.badRequest ("You have already liked this blog"), sampleV2Liked)
    ∧ ((likeBlogV2 sampleV2Pub 8 1).1 = Resp.ok ∧
       findById BlogV2.id 1 ((likeBlogV2 sampleV2Pub 8 1).2).blogs =
         some { blogP with likes := blogP.likes ++ [8] }) :=
  ⟨(c6_like_at_most_once sampleV2Liked 8 1 blogL (by decide)).1 (by decide),
   (c6_like_at_most_once sampleV2Pub 8 1 blogP (by decide)).2.1 (by decide)⟩

/-- Witness for C7: unliking a blog user 9 never liked answers 200 and keeps
the store; a second unlike of the liked store equals the first. -/
theorem c7_witness :
    unlikeBlogV2 sampleV2Pub 9 1 = (Resp.ok, sampleV2Pub) ∧
    (unlikeBlogV2 (unlikeBlogV2 sampleV2Liked 8 1).2 8 1).2 = (unlikeBlogV2 sampleV2Liked 8 1).2 :=
  ⟨(c7_unlike_idempotent sampleV2Pub 9 1).1 blogP (by decide) (by decide),
   (c7_unlike_idempotent sampleV2Liked 8 1).2⟩

/-- A CommentV2 without an author never passes the schema validation that
`save()` runs. -/
theorem commentSaveValid_none (t : String) : commentSaveValid t none = false := by
  simp [commentSaveValid]

/-- Claim C10: a comment or reply creation request carrying no authenticated
principal fails — the v2 routes set the author to null and the v1 route
never sets one, the schemas declare author required, so `save()` rejects the
document before the container is touched: the store is unchanged and nothing
is created. -/
theorem c10_anonymous_comment_rejected :
    (∀ (s : StateV2) (blogId freshId : Nat) (text : String),
        (createCommentV2 s none blogId freshId text).2 = s ∧
        (createCommentV2 s none blogId freshId text).1 ≠ Resp.created)
    ∧
    (∀ (s : StateV2) (blogId parentId freshId : Nat) (text : String),
        (createReplyV2 s none blogId parentId freshId text).2 = s ∧
        (createReplyV2 s none blogId parentId freshId text).1 ≠ Resp.created)
    ∧
    (∀ (s : StateV1) (blogId freshId : Nat) (text : String),
        (createCommentV1 s blogId freshId text).2 = s ∧
        (createCommentV1 s blogId freshId text).1 ≠ Resp.created) := by
  refine ⟨?_, ?_, ?_⟩
  · intro s blogId freshId text
    unfold createCommentV2
    cases hf : findById BlogV2.id blogId s.blogs with
    | none => exact ⟨rfl, fun h => Resp.noConfusion h⟩
    | some b =>
      dsimp only
      by_cases hv : routeValidCommentV2 text = true
      · rw [if_pos hv]
        rw [if_neg (by simp [commentSaveValid_none])]
        exact ⟨rfl, fun h => Resp.noConfusion h⟩
      · rw [if_neg hv]
        exact ⟨rfl, fun h => Resp.noConfusion h⟩
  · intro s blogId parentId freshId text
    unfold createReplyV2
    cases hf : findById BlogV2.id blogId s.blogs with
    | none => exact ⟨rfl, fun h => Resp.noConfusion h⟩
    | some b =>
      dsimp only
      cases hf2 : findById CommentV2.id parentId s.comments with
      | none => exact ⟨rfl, fun h => Resp.noConfusion h⟩
      | some c =>
        dsimp only
        by_cases hv : routeValidCommentV2 text = true
        · rw [if_pos hv]
          rw [if_neg (by simp [commentSaveValid_none])]
          exact ⟨rfl, fun h => Resp.noConfusion h⟩
        · rw [if_neg hv]
          exact ⟨rfl, fun h => Resp.noConfusion h⟩
  · intro s blogId freshId text
    unfold createCommentV1
    cases hf : findById Blog.id blogId s.blogs with
    | none => exact ⟨rfl, fun h => Resp.noConfusion h⟩
    | some b =>
      dsimp only
      by_cases hv : (jsTrim text).isEmpty = true
      · rw [if_neg (by simp [hv])]
        exact ⟨rfl, fun h => Resp.noConfusion h⟩
      · rw [if_pos (by simp [hv])]
        rw [if_neg (by simp [commentSaveValid_none])]
        exact ⟨rfl, fun h => Resp.noConfusion h⟩

/-- Witness for C10: an anonymous comment on the sample published v2 blog is
rejected and the store is unchanged. -/
theorem c10_witness :
    (createCommentV2 sampleV2Pub none 1 99 ("hello world")).2 = sampleV2Pub ∧
    (createCommentV2 sampleV2Pub none 1 99 ("hello world")).1 ≠ Resp.created :=
  c10_anonymous_comment_rejected.1 sampleV2Pub 1 99 ("hello world")

/-- Claim C4, evaluated at the failing input: blog 1 lists comment 10 in its
comments array; the owner deletes the blog; the request succeeds and removes
the blog, but comment 10 survives in the comment store as an orphan of the
deleted blog — neither delete endpoint cascades to the comments (the claim
requires that no comment attached to the deleted blog remain). -/
theorem c4_delete_no_cascade :
    (findById Blog.id 1 sampleV1WithComment.blogs).map Blog.comments = some [10] ∧
    (deleteBlogV1 sampleV1WithComment 7 1).1 = Resp.ok ∧
    findById Blog.id 1 ((deleteBlogV1 sampleV1WithComment 7 1).2).blogs = none ∧
    findById Comment.id 10 ((deleteBlogV1 sampleV1WithComment 7 1).2).comments = some cmtA ∧
    (findById BlogV2.id 1 sampleV2Thread.blogs).map BlogV2.comments = some [10] ∧
    (deleteBlogV2 sampleV2Thread 7 1).1 = Resp.ok ∧
    findById BlogV2.id 1 ((deleteBlogV2 sampleV2Thread 7 1).2).blogs = none ∧
    ((deleteBlogV2 sampleV2Thread 7 1).2).comments = sampleV2Thread.comments := by
  decide

/-- The single-document update primitive never downgrades a flag the update
function preserves. -/
theorem noDowngrade_updateById {α : Type} {key : α → Nat} {flag : α → Bool} {l : List α}
    (i : Nat) (f : α → α) (hnd : (l.map key).Nodup)
    (hkey : ∀ a, key (f a) = key a)
    (hflag : ∀ a, flag a = true → flag (f a) = true) :
    noDowngrade key flag l (updateById key i f l) := by
  unfold updateById
  refine noDowngrade_map _ hnd ?_ ?_
  · intro a
    by_cases h : key a = i
    · rw [if_pos h]; exact hkey a
    · rw [if_neg h]
  · intro a ha
    by_cases h : key a = i
    · rw [if_pos h]; exact hflag a ha
    · rw [if_neg h]; exact ha

/-- The delete primitive never downgrades a flag. -/
theorem noDowngrade_deleteById {α : Type} {key : α → Nat} {flag : α → Bool} {l : List α}
    (i : Nat) (hnd : (l.map key).Nodup) :
    noDowngrade key flag l (deleteById key i l) := by
  unfold deleteById
  exact noDowngrade_filter _ hnd

/-- Counterexample to C2 as stated: on the v2 publish endpoint an
authenticated non-owner (user 8, blog owned by user 7) is rejected with
status 401, not 403 Forbidden. -/
theorem c2_counterexample :
    publishBlogV2 sampleV2 8 1 = (Resp.unauthorized, sampleV2) ∧
    Resp.status (publishBlogV2 sampleV2 8 1).1 = 401 ∧
    Resp.status (publishBlogV2 sampleV2 8 1).1 ≠ 403 := by
  decide

/-- Claim C2 (amended): each OwnerOnly mutating blog endpoint rejects an
authenticated non-owner and leaves the store unchanged — the three v1
endpoints and the v2 delete answer 403 Forbidden, while the v2 update and
v2 publish answer 401 — and accepts the owner (given a body that passes
validation and a document that passes the schema). -/
theorem c2_owner_policy :
    (∀ (s : StateV1) (uid i : Nat) (b : Blog) (body : UpdateBodyV1) (file : Option String),
        findById Blog.id i s.blogs = some b → b.author ≠ uid →
        routeValidBlogV1 body.title body.content = true →
        updateBlogV1 s uid i body file = (Resp.forbidden, s))
    ∧ (∀ (s : StateV1) (uid i : Nat) (b : Blog),
        findById Blog.id i s.blogs = some b → b.author ≠ uid →
        publishBlogV1 s uid i = (Resp.forbidden, s))
    ∧ (∀ (s : StateV1) (uid i : Nat) (b : Blog),
        findById Blog.id i s.blogs = some b → b.author ≠ uid →
        deleteBlogV1 s uid i = (Resp.forbidden, s))
    ∧ (∀ (s : StateV2) (uid i : Nat) (b : BlogV2) (body : BodyV2) (file : Option String),
        findById BlogV2.id i s.blogs = some b → b.author ≠ uid →
        routeValidBlogV2 body = true →
        updateBlogV2 s uid i body file = (Resp.unauthorized, s))
    ∧ (∀ (s : StateV2) (uid i : Nat) (b : BlogV2),
        findById BlogV2.id i s.blogs = some b → b.author ≠ uid →
        publishBlogV2 s uid i = (Resp.unauthorized, s))
    ∧ (∀ (s : StateV2) (uid i : Nat) (b : BlogV2),
        findById BlogV2.id i s.blogs = some b → b.author ≠ uid →
        deleteBlogV2 s uid i = (Resp.forbidden, s))
    ∧ (∀ (s : StateV1) (uid i : Nat) (b : Blog) (body : UpdateBodyV1) (file : Option String),
        findById Blog.id i s.blogs = some b → b.author = uid →
        routeValidBlogV1 body.title body.content = true →
        blogSaveValidV1 (applyUpdateV1 body (reqImage file body.image) b) = true →
        (updateBlogV1 s uid i body file).1 = Resp.ok)
    ∧ (∀ (s : StateV1) (i : Nat) (b : Blog),
        findById Blog.id i s.blogs = some b →
        (publishBlogV1 s b.author i).1 = Resp.ok)
    ∧ (∀ (s : StateV1) (i : Nat) (b : Blog),
        findById Blog.id i s.blogs = some b →
        (deleteBlogV1 s b.author i).1 = Resp.ok)
    ∧ (∀ (s : StateV2) (uid i : Nat) (b : BlogV2) (body : BodyV2) (file : Option String),
        findById BlogV2.id i s.blogs = some b → b.author = uid →
        routeValidBlogV2 body = true →
        (updateBlogV2 s uid i body file).1 = Resp.ok)
    ∧ (∀ (s : StateV2) (i : Nat) (b : BlogV2),
        findById BlogV2.id i s.blogs = some b →
        (publishBlogV2 s b.author i).1 = Resp.ok)
    ∧ (∀ (s : StateV2) (i : Nat) (b : BlogV2),
        findById BlogV2.id i s.blogs = some b →
        (deleteBlogV2 s b.author i).1 = Resp.ok) := by
  refine ⟨?_, ?_, ?_, ?_, ?_, ?_, ?_, ?_, ?_, ?_, ?_, ?_⟩
  · intro s uid i b body file hf hne hv
    unfold updateBlogV1
    rw [if_pos hv]
    dsimp only
    rw [hf]
    dsimp only
    rw [if_pos hne]
  · intro s uid i b hf hne
    unfold publishBlogV1
    rw [hf]
    dsimp only
    rw [if_pos hne]
  · intro s uid i b hf hne
    unfold deleteBlogV1
    rw [hf]
    dsimp only
    rw [if_pos hne]
  · intro s uid i b body file hf hne hv
    unfold updateBlogV2
    rw [if_pos hv, hf]
    dsimp only
    rw [if_pos hne]
  · intro s uid i b hf hne
    unfold publishBlogV2
    rw [hf]
    dsimp only
    rw [if_pos hne]
  · intro s uid i b hf hne
    unfold deleteBlogV2
    rw [hf]
    dsimp only
    rw [if_pos hne]
  · intro s uid i b body file hf heq hv hsv
    unfold updateBlogV1
    rw [if_pos hv]
    dsimp only
    rw [hf]
    dsimp only
    rw [if_neg (by simp [heq]), if_pos hsv]
  · intro s i b hf
    unfold publishBlogV1
    rw [hf]
    dsimp only
    rw [if_neg (by simp)]
  · intro s i b hf
    unfold deleteBlogV1
    rw [hf]
    dsimp only
    rw [if_neg (by simp)]
  · intro s uid i b body file hf heq hv
    unfold updateBlogV2
    rw [if_pos hv, hf]
    dsimp only
    rw [if_neg (by simp [heq])]
  · intro s i b hf
    unfold publishBlogV2
    rw [hf]
    dsimp only
    rw [if_neg (by simp)]
  · intro s i b hf
    unfold deleteBlogV2
    rw [hf]
    dsimp only
    rw [if_neg (by simp)]

/-- Witness for C2: user 8 cannot delete the v2 blog owned by user 7 (403,
store unchanged); the owner can publish the v1 sample blog. -/
theorem c2_witness :
    deleteBlogV2 sampleV2 8 1 = (Resp.forbidden, sampleV2) ∧
    (publishBlogV1 sampleV1 blogA.author 1).1 = Resp.ok :=
  ⟨c2_owner_policy.2.2.2.2.2.1 sampleV2 8 1 blogB (by decide) (by decide),
   c2_owner_policy.2.2.2.2.2.2.2.1 sampleV1 1 blogA (by decide)⟩

/-- Counterexample to C1 as stated: blog 1 of the v1 sample store is
published; its owner issues a v1 update whose body carries
isPublished = false; the update succeeds and the blog ends up unpublished —
an exposed operation moved isPublished from true back to false. -/
theorem c1_counterexample :
    (findById Blog.id 1 sampleV1.blogs).map Blog.isPublished = some true ∧
    (updateBlogV1 sampleV1 7 1 unpubBody none).1 = Resp.ok ∧
    (findById Blog.id 1 ((updateBlogV1 sampleV1 7 1 unpubBody none).2).blogs).map Blog.isPublished =
      some false := by
  decide

/-- Claim C1 (amended): across the exposed surface, every operation other
than the v1 blog update preserves a published blog as published (the publish
endpoints only set the flag to true), under the store invariant that ids are
unique (and fresh for creations); the v1 update endpoint instead writes the
request body isPublished verbatim into the blog, so it alone can move the
flag from true back to false. -/
theorem c1_publish_one_way :
    (∀ (s : StateV1) (i : Nat), (s.blogs.map Blog.id).Nodup →
        noUnpubV1 s ((getBlogV1 s i).2))
    ∧ (∀ (s : StateV1) (uid fid : Nat) (t c : String) (file : Option String),
        (s.blogs.map Blog.id).Nodup → fid ∉ s.blogs.map Blog.id →
        noUnpubV1 s ((createBlogV1 s uid fid t c file).2))
    ∧ (∀ (s : StateV1) (uid i : Nat), (s.blogs.map Blog.id).Nodup →
        noUnpubV1 s ((publishBlogV1 s uid i).2))
    ∧ (∀ (s : StateV1) (uid i : Nat), (s.blogs.map Blog.id).Nodup →
        noUnpubV1 s ((deleteBlogV1 s uid i).2))
    ∧ (∀ (s : StateV1) (bid fid : Nat) (text : String), (s.blogs.map Blog.id).Nodup →
        noUnpubV1 s ((createCommentV1 s bid fid text).2))
    ∧ (∀ (s : StateV1) (uid cid : Nat), (s.blogs.map Blog.id).Nodup →
        noUnpubV1 s ((deleteCommentV1 s uid cid).2))
    ∧ (∀ (s : StateV2) (i : Nat), (s.blogs.map BlogV2.id).Nodup →
        noUnpubV2 s ((getBlogV2 s i).2))
    ∧ (∀ (s : StateV2) (uid fid : Nat) (body : BodyV2) (file : Option String),
        (s.blogs.map BlogV2.id).Nodup → fid ∉ s.blogs.map BlogV2.id →
        noUnpubV2 s ((createBlogV2 s uid fid body file).2))
    ∧ (∀ (s : StateV2) (uid i : Nat), (s.blogs.map BlogV2.id).Nodup →
        noUnpubV2 s ((publishBlogV2 s uid i).2))
    ∧ (∀ (s : StateV2) (uid i : Nat) (body : BodyV2) (file : Option String),
        (s.blogs.map BlogV2.id).Nodup →
        noUnpubV2 s ((updateBlogV2 s uid i body file).2))
    ∧ (∀ (s : StateV2) (uid i : Nat), (s.blogs.map BlogV2.id).Nodup →
        noUnpubV2 s ((deleteBlogV2 s uid i).2))
    ∧ (∀ (s : StateV2) (uid i : Nat), (s.blogs.map BlogV2.id).Nodup →
        noUnpubV2 s ((likeBlogV2 s uid i).2))
    ∧ (∀ (s : StateV2) (uid i : Nat), (s.blogs.map BlogV2.id).Nodup →
        noUnpubV2 s ((unlikeBlogV2 s uid i).2))
    ∧ (∀ (s : StateV2) (p : Option Nat) (bid fid : Nat) (text : String),
        (s.blogs.map BlogV2.id).Nodup →
        noUnpubV2 s ((createCommentV2 s p bid fid text).2))
    ∧ (∀ (s : StateV2) (p : Option Nat) (bid pid fid : Nat) (text : String),
        (s.blogs.map BlogV2.id).Nodup →
        noUnpubV2 s ((createReplyV2 s p bid pid fid text).2))
    ∧ (∀ (s : StateV2) (u : User) (bid cid : Nat), (s.blogs.map BlogV2.id).Nodup →
        noUnpubV2 s ((deleteCommentV2 s u bid cid).2))
    ∧ (∀ (s : StateV1) (uid i : Nat) (b : Blog) (body : UpdateBodyV1) (file : Option String),
        findById Blog.id i s.blogs = some b → b.author = uid →
        routeValidBlogV1 body.title body.content = true →
        blogSaveValidV1 (applyUpdateV1 body (reqImage file body.image) b) = true →
        (updateBlogV1 s uid i body file).1 = Resp.ok ∧
        findById Blog.id i ((updateBlogV1 s uid i body file).2).blogs =
          some (applyUpdateV1 body (reqImage file body.image) b) ∧
        (applyUpdateV1 body (reqImage file body.image) b).isPublished = body.isPublished) := by
  refine ⟨?_, ?_, ?_, ?_, ?_, ?_, ?_, ?_, ?_, ?_, ?_, ?_, ?_, ?_, ?_, ?_, ?_⟩
  · intro s i hnd
    unfold getBlogV1
    cases hf : findById Blog.id i s.blogs with
    | none => exact noDowngrade_refl hnd
    | some b => exact noDowngrade_updateById i _ hnd (fun _ => rfl) (fun _ ha => ha)
  · intro s uid fid t c file hnd hfresh
    unfold createBlogV1
    split
    · dsimp only
      split
      · exact noDowngrade_append _ hnd hfresh
      · exact noDowngrade_refl hnd
    · exact noDowngrade_refl hnd
  · intro s uid i hnd
    unfold publishBlogV1
    cases hf : findById Blog.id i s.blogs with
    | none => exact noDowngrade_refl hnd
    | some b =>
      dsimp only
      split
      · exact noDowngrade_refl hnd
      · exact noDowngrade_updateById i _ hnd (fun _ => rfl) (fun _ _ => rfl)
  · intro s uid i hnd
    unfold deleteBlogV1
    cases hf : findById Blog.id i s.blogs with
    | none => exact noDowngrade_refl hnd
    | some b =>
      dsimp only
      split
      · exact noDowngrade_refl hnd
      · exact noDowngrade_deleteById i hnd
  · intro s bid fid text hnd
    unfold createCommentV1
    cases hf : findById Blog.id bid s.blogs with
    | none => exact noDowngrade_refl hnd
    | some b =>
      dsimp only
      split
      · split
        · exact noDowngrade_updateById bid _ hnd (fun _ => rfl) (fun _ ha => ha)
        · exact noDowngrade_refl hnd
      · exact noDowngrade_refl hnd
  · intro s uid cid hnd
    unfold deleteCommentV1
    cases hf : findById Comment.id cid s.comments with
    | none => exact noDowngrade_refl hnd
    | some c =>
      dsimp only
      cases hca : c.author with
      | none => exact noDowngrade_refl hnd
      | some a =>
        dsimp only
        split
        · exact noDowngrade_refl hnd
        · exact noDowngrade_refl hnd
  · intro s i hnd
    unfold getBlogV2
    cases hf : s.blogs.find? (fun b => b.id == i && b.isPublished) with
    | none => exact noDowngrade_refl hnd
    | some b =>
      dsimp only
      refine noDowngrade_map _ hnd ?_ ?_
      · intro a
        by_cases h : (a.id == i && a.isPublished) = true
        · rw [if_pos h]
        · rw [if_neg h]
      · intro a ha
        by_cases h : (a.id == i && a.isPublished) = true
        · rw [if_pos h]; exact ha
        · rw [if_neg h]; exact ha
  · intro s uid fid body file hnd hfresh
    unfold createBlogV2
    split
    · exact noDowngrade_append _ hnd hfresh
    · exact noDowngrade_refl hnd
  · intro s uid i hnd
    unfold publishBlogV2
    cases hf : findById BlogV2.id i s.blogs with
    | none => exact noDowngrade_refl hnd
    | some b =>
      dsimp only
      split
      · exact noDowngrade_refl hnd
      · exact noDowngrade_updateById i _ hnd (fun _ => rfl) (fun _ _ => rfl)
  · intro s uid i body file hnd
    unfold updateBlogV2
    split
    · cases hf : findById BlogV2.id i s.blogs with
      | none => exact noDowngrade_refl hnd
      | some b =>
        dsimp only
        split
        · exact noDowngrade_refl hnd
        · exact noDowngrade_updateById i _ hnd (fun _ => rfl) (fun _ ha => ha)
    · exact noDowngrade_refl hnd
  · intro s uid i hnd
    unfold deleteBlogV2
    cases hf : findById BlogV2.id i s.blogs with
    | none => exact noDowngrade_refl hnd
    | some b =>
      dsimp only
      split
      · exact noDowngrade_refl hnd
      · exact noDowngrade_deleteById i hnd
  · intro s uid i hnd
    unfold likeBlogV2
    cases hf : findById BlogV2.id i s.blogs with
    | none => exact noDowngrade_refl hnd
    | some b =>
      dsimp only
      split
      · exact noDowngrade_refl hnd
      · exact noDowngrade_updateById i _ hnd (fun _ => rfl) (fun _ ha => ha)
  · intro s uid i hnd
    unfold unlikeBlogV2
    cases hf : findById BlogV2.id i s.blogs with
    | none => exact noDowngrade_refl hnd
    | some b =>
      dsimp only
      split
      · exact noDowngrade_updateById i _ hnd (fun _ => rfl) (fun _ ha => ha)
      · exact noDowngrade_refl hnd
  · intro s p bid fid text hnd
    unfold createCommentV2
    cases hf : findById BlogV2.id bid s.blogs with
    | none => exact noDowngrade_refl hnd
    | some b =>
      dsimp only
      split
      · split
        · exact noDowngrade_updateById bid _ hnd (fun _ => rfl) (fun _ ha => ha)
        · exact noDowngrade_refl hnd
      · exact noDowngrade_refl hnd
  · intro s p bid pid fid text hnd
    unfold createReplyV2
    cases hf : findById BlogV2.id bid s.blogs with
    | none => exact noDowngrade_refl hnd
    | some b =>
      dsimp only
      cases hf2 : findById CommentV2.id pid s.comments with
      | none => exact noDowngrade_refl hnd
      | some c =>
        dsimp only
        split
        · split
          · exact noDowngrade_refl hnd
          · exact noDowngrade_refl hnd
        · exact noDowngrade_refl hnd
  · intro s u bid cid hnd
    unfold deleteCommentV2
    cases hf : findById BlogV2.id bid s.blogs with
    | none => exact noDowngrade_refl hnd
    | some b =>
      dsimp only
      cases hf2 : findById CommentV2.id cid s.comments with
      | none => exact noDowngrade_refl hnd
      | some c =>
        dsimp only
        split
        · exact noDowngrade_refl hnd
        · refine noDowngrade_map _ hnd (fun _ => rfl) (fun _ ha => ha)
  · intro s uid i b body file hf heq hv hsv
    unfold updateBlogV1
    rw [if_pos hv]
    dsimp only
    rw [hf]
    dsimp only
    rw [if_neg (by simp [heq]), if_pos hsv]
    refine ⟨rfl, ?_, rfl⟩
    dsimp only
    rw [findById_updateById Blog.id i (applyUpdateV1 body (reqImage file body.image))
      (fun _ => rfl) s.blogs, hf]
    rfl

/-- Witness for C1 (amended): a v1 get preserves the published sample blog,
and the v1 update (the excluded endpoint) writes the body flag verbatim. -/
theorem c1_witness :
    noUnpubV1 sampleV1 ((getBlogV1 sampleV1 1).2) ∧
    ((updateBlogV1 sampleV1 7 1 unpubBody none).1 = Resp.ok ∧
     findById Blog.id 1 ((updateBlogV1 sampleV1 7 1 unpubBody none).2).blogs =
       some (applyUpdateV1 unpubBody (reqImage none unpubBody.image) blogA) ∧
     (applyUpdateV1 unpubBody (reqImage none unpubBody.image) blogA).isPublished =
       unpubBody.isPublished) :=
  ⟨c1_publish_one_way.1 sampleV1 1 (by decide),
   c1_publish_one_way.2.2.2.2.2.2.2.2.2.2.2.2.2.2.2.2 sampleV1 7 1 blogA unpubBody none
     (by decide) (by decide) (by decide) (by decide)⟩

end BlogApi
